import Mathlib

/-!
Formal model of the "Rebels" credit financial-twin decision engine.

The Python sources are embedded shallowly:
  * `Engine/twin_search.py` : `analyze_twins`, `make_decision`, `find_twins`
  * `Engine/embeddings.py`  : `encode_grade`, `create_application_vector`
  * `UI/credit-decision-twin/backend/services.py` :
    `cosine_similarity`, `calculate_anomaly_score`

Modelling conventions:
  * Python floats are modelled as `ℚ`; the decision thresholds and the rates
    `count/total` compare identically over `ℚ` and over IEEE doubles at the
    boundary points exercised here (e.g. the double for the literal `0.99`
    equals the double computed by `99/100`).
  * `np.log1p` is transcendental, so the encoder takes it as an explicit
    function parameter; no claim depends on the value of the two log-scaled
    coordinates.
  * Python's `x or default` treats `0`/`None` as falsy, modelled by `orFalsy`.
  * Presentational artifacts (the `reason` / `message` / `explanation`
    strings, which merely interpolate numbers into fixed English templates,
    and the LLM fallback) are not modelled; all numeric and structural
    fields of the returned dictionaries are.
  * Dictionary keys that a branch does not set are modelled as the
    structure-field defaults given below (`[]`, `none`, `false`), matching
    how every reader in the source accesses them (via `.get` with the same
    default).
-/

namespace CreditTwin

/-- Python `round(x, ndigits)` rounds half to even (banker's rounding). -/
def roundHalfToEven (q : ℚ) : ℤ :=
  let f := ⌊q⌋
  let frac := q - f
  if frac < 1/2 then f
  else if 1/2 < frac then f + 1
  else if f % 2 = 0 then f else f + 1

/-- Python `round(q, ndigits)` on a rational, with possibly negative
`ndigits` (e.g. `round(x, -2)` rounds to the nearest hundred). -/
def pyRound (q : ℚ) (ndigits : ℤ) : ℚ :=
  let scale : ℚ := (10 : ℚ) ^ ndigits
  (roundHalfToEven (q * scale) : ℚ) / scale

/-- Python `x or d` for an optional numeric field: `None` and `0` are both
falsy, so either yields the default `d`. -/
def orFalsy (x : Option ℚ) (d : ℚ) : ℚ :=
  match x with
  | none => d
  | some v => if v = 0 then d else v

/-- Decision verdict strings produced by `twin_search.py`. -/
inductive Verdict where
  | APPROVED
  | APPROVED_WITH_CONDITIONS
  | MANUAL_REVIEW
  | REJECTED
  | ANOMALY_DETECTED
deriving DecidableEq, Repr

/-- Payload of one historical case stored in the vector index.
`outcome` is always present (ingestion writes it); the other fields are
read through `.get` in the source and so are optional, except the two
boolean flags which ingestion precomputes as 0/1. -/
structure Payload where
  outcome : String
  is_fraud_suspect : Bool
  is_comeback_story : Bool
  application_id : Option String
  requested_amount : Option ℚ
  fico : Option ℚ
  dti : Option ℚ
deriving DecidableEq, Repr

/-- One search hit: a similarity score plus the stored payload. -/
structure Neighbor where
  score : ℚ
  payload : Payload
deriving DecidableEq, Repr

/-- The incoming application dictionary. All numeric fields are optional
(`.get` semantics); categorical fields are optional strings. -/
structure Application where
  requested_amount : Option ℚ
  loan_purpose : Option String
  term : Option String
  grade : Option String
  annual_income_snapshot : Option ℚ
  dti_snapshot : Option ℚ
  fico_snapshot : Option ℚ
  credit_history_length_snapshot : Option ℚ
  revolving_utilization_snapshot : Option ℚ
  nb_previous_loans : Option ℚ
  open_accounts : Option ℚ
  total_accounts : Option ℚ
  delinquencies_2y : Option ℚ
  inquiries_6m : Option ℚ
  public_records : Option ℚ
  payment_to_income_ratio : Option ℚ
  loan_to_income_ratio : Option ℚ
deriving DecidableEq, Repr

/-- Entry of the `top_twins` list built by `analyze_twins` (the similarity
is rounded to 3 decimals in the source). -/
structure TwinSummary where
  application_id : Option String
  similarity : ℚ
  outcome : String
  requested_amount : Option ℚ
  fico : Option ℚ
  dti : Option ℚ
deriving DecidableEq, Repr

/-- Cohort statistics returned by `analyze_twins`. The empty-input branch
of the source omits the `rejected_count` key; every reader accesses it via
`.get("rejected_count", 0)`, so it is modelled as `0` there. -/
structure Analysis where
  total_twins : ℕ
  success_count : ℕ
  default_count : ℕ
  late_count : ℕ
  rejected_count : ℕ
  success_rate : ℚ
  default_rate : ℚ
  late_rate : ℚ
  avg_similarity : ℚ
  top_twins : List TwinSummary
deriving DecidableEq, Repr

/-- The improvement roadmap attached to some REJECTED decisions
(the narrative `message` string is presentational and not modelled). -/
structure Roadmap where
  target_fico : ℚ
  target_dti : ℚ
deriving DecidableEq, Repr

/-- The safer-amount alternative offer (its `type` field is the constant
string SAFER_AMOUNT and its `message` is presentational). -/
structure Offer where
  amount : ℚ
deriving DecidableEq, Repr

/-- The decision dictionary assembled by `find_twins` / `make_decision`.
Fields a branch does not set keep the defaults below, matching the
`.get`-with-default reads in the source. The `nudge` attachment is a fixed
constant dictionary, modelled as a boolean presence flag. -/
structure Decision where
  decision : Verdict
  confidence : ℚ
  conditions : List String := []
  recommended_amount : Option ℚ := none
  analysis : Option Analysis := none
  twins_found : Option ℕ := none
  is_fraud_suspect : Bool := false
  roadmap : Option Roadmap := none
  alternative_offer : Option Offer := none
  nudge : Bool := false
deriving DecidableEq, Repr

/-- Model of `twin_search.analyze_twins`: outcome counts, rates, average similarity
and the top-5 summary over the retrieved neighbor list. -/
def analyze_twins (results : List Neighbor) : Analysis :=
  if results.length = 0 then
    { total_twins := 0
      success_count := 0
      default_count := 0
      late_count := 0
      rejected_count := 0
      success_rate := 0
      default_rate := 0
      late_rate := 0
      avg_similarity := 0
      top_twins := [] }
  else
    let total := results.length
    let success := results.countP (fun r => r.payload.outcome == "success")
    let default := results.countP (fun r => r.payload.outcome == "default")
    let late := results.countP (fun r => r.payload.outcome == "late_payments")
    let rejected := results.countP (fun r => r.payload.outcome == "rejected")
    let avg_score := (results.map (fun r => r.score)).sum / (total : ℚ)
    let top_twins := (results.take 5).map (fun r =>
      { application_id := r.payload.application_id
        similarity := pyRound r.score 3
        outcome := r.payload.outcome
        requested_amount := r.payload.requested_amount
        fico := r.payload.fico
        dti := r.payload.dti : TwinSummary })
    { total_twins := total
      success_count := success
      default_count := default
      late_count := late
      rejected_count := rejected
      success_rate := (success : ℚ) / (total : ℚ)
      default_rate := (default : ℚ) / (total : ℚ)
      late_rate := (late : ℚ) / (total : ℚ)
      avg_similarity := avg_score
      top_twins := top_twins }

/-- Model of `twin_search.make_decision`: the fixed threshold table applied to the
cohort rates, first match wins. -/
def make_decision (analysis : Analysis) (application : Application) : Decision :=
  let success_rate := analysis.success_rate
  let default_rate := analysis.default_rate
  if 99/100 ≤ success_rate ∧ default_rate < 5/100 then
    { decision := Verdict.APPROVED
      confidence := analysis.avg_similarity
      conditions := []
      recommended_amount := application.requested_amount
      analysis := some analysis }
  else if 90/100 ≤ success_rate ∧ default_rate < 10/100 then
    let conditions :=
      (if 5/100 < default_rate then ["Mandatory 25% reduction in requested amount"] else []) ++
      (if 10/100 < analysis.late_rate then ["Interest rate premium (+1.5% APR)"] else [])
    let recommended_amount :=
      if 5/100 < default_rate then some ((application.requested_amount.getD 0) * (75/100))
      else application.requested_amount
    let conditions :=
      if conditions = [] then ["Standard conditions with enhanced monitoring"] else conditions
    { decision := Verdict.APPROVED_WITH_CONDITIONS
      confidence := analysis.avg_similarity
      conditions := conditions
      recommended_amount := recommended_amount
      analysis := some analysis }
  else if 85/100 ≤ success_rate then
    { decision := Verdict.MANUAL_REVIEW
      confidence := analysis.avg_similarity
      analysis := some analysis }
  else
    { decision := Verdict.REJECTED
      confidence := analysis.avg_similarity
      analysis := some analysis }

/-- Steps 3-8 of `twin_search.find_twins`, beginning after the vector-index
query returned `results` (steps 1-2 — vectorisation and the networked
query — are external I/O whose outcome is the `results` argument). -/
def find_twins_core (results : List Neighbor) (new_application : Application) : Decision :=
  if results.length < 10 then
    { decision := Verdict.ANOMALY_DETECTED
      confidence := 0
      twins_found := some results.length }
  else
    let analysis := analyze_twins results
    let fraud_count := (results.take 20).countP (fun r => r.payload.is_fraud_suspect)
    if 5 ≤ fraud_count ∨ 999/1000 < analysis.avg_similarity then
      { decision := Verdict.REJECTED
        confidence := 1
        is_fraud_suspect := true
        analysis := some analysis }
    else
      let d0 := make_decision analysis new_application
      let d1 :=
        if d0.decision = Verdict.REJECTED then
          let comebacks := results.filter (fun r => r.payload.is_comeback_story)
          let withRoadmap :=
            match comebacks with
            | [] => d0
            | best :: _ =>
              let rm : Roadmap :=
                { target_fico := best.payload.fico.getD 700
                  target_dti := pyRound (best.payload.dti.getD 20) 1 }
              { d0 with roadmap := some rm }
          let successful_twins := results.filter (fun r => r.payload.outcome == "success")
          match successful_twins with
          | [] => withRoadmap
          | _ =>
            let avg_safe_amount :=
              (successful_twins.map (fun r => orFalsy r.payload.requested_amount 0)).sum /
                (successful_twins.length : ℚ)
            if avg_safe_amount < (new_application.requested_amount.getD 0) * (8/10) then
              { withRoadmap with alternative_offer := some ⟨pyRound avg_safe_amount (-2)⟩ }
            else withRoadmap
        else d0
      let d2 :=
        if d1.decision = Verdict.APPROVED ∨ d1.decision = Verdict.APPROVED_WITH_CONDITIONS then
          if new_application.nb_previous_loans.getD 0 = 0 then { d1 with nudge := true } else d1
        else d1
      d2

/-- Model of `twin_search.find_twins`: wraps the index query in try/except: a raised
search error is replaced by the empty result list and never propagated. -/
def find_twins (searchResult : Except String (List Neighbor))
    (new_application : Application) : Decision :=
  let results :=
    match searchResult with
    | Except.error _ => []
    | Except.ok rs => rs
  find_twins_core results new_application

/-- Model of `embeddings.encode_grade`: ordinal grade A-G to a fixed descending
scale; `None`/empty are falsy and yield the neutral 0.5, as does any
unknown grade after stripping whitespace. -/
def encode_grade (grade : Option String) : ℚ :=
  match grade with
  | none => 1/2
  | some g =>
    if g = "" then 1/2
    else
      match g.trim with
      | "A" => 1
      | "B" => 85/100
      | "C" => 70/100
      | "D" => 55/100
      | "E" => 40/100
      | "F" => 25/100
      | "G" => 10/100
      | _ => 1/2

/-- Model of `embeddings.create_application_vector`. Here `np.log1p` is transcendental
and is passed in as the function parameter `log1p` (it touches only the
two monetary coordinates); everything else is exact rational arithmetic.
The 22 computed entries are right-padded with zeros to `vector_size` and
then truncated to exactly `vector_size`. -/
def create_application_vector (log1p : ℚ → ℚ) (application : Application)
    (vector_size : ℕ) : List ℚ :=
  let vector : List ℚ := [
    log1p (orFalsy application.requested_amount 0) / 15,
    log1p (orFalsy application.annual_income_snapshot 0) / 15,
    min ((orFalsy application.dti_snapshot 0) / 100) 1,
    min (orFalsy application.payment_to_income_ratio 0) 1,
    min (orFalsy application.loan_to_income_ratio 0) 1,
    min ((orFalsy application.revolving_utilization_snapshot 0) / 100) 1,
    (orFalsy application.fico_snapshot 650) / 850,
    min ((orFalsy application.credit_history_length_snapshot 0) / 50) 1,
    min ((orFalsy application.nb_previous_loans 0) / 10) 1,
    min ((orFalsy application.open_accounts 0) / 30) 1,
    min ((orFalsy application.total_accounts 0) / 50) 1,
    min ((orFalsy application.delinquencies_2y 0) / 10) 1,
    min ((orFalsy application.inquiries_6m 0) / 10) 1,
    min ((orFalsy application.public_records 0) / 5) 1,
    if application.term = some " 36 months" then 1 else 0,
    if application.term = some " 60 months" then 1 else 0,
    encode_grade application.grade,
    if application.loan_purpose = some "debt_consolidation" then 1 else 0,
    if application.loan_purpose = some "credit_card" then 1 else 0,
    if application.loan_purpose = some "home_improvement" then 1 else 0,
    if application.loan_purpose = some "other" then 1 else 0,
    if application.loan_purpose = some "major_purchase" then 1 else 0]
  (vector ++ List.replicate (vector_size - vector.length) 0).take vector_size

/-- One historical case of the in-process backend
(`services.FinancialTwin`). Only the similarity score is read by
`calculate_anomaly_score`; the payload fields are untouched there and
omitted from this model. -/
structure FinancialTwin where
  similarity : ℚ
deriving DecidableEq, Repr

/-- Model of `services.calculate_anomaly_score`: weighted combination of the top
similarity, the 1st-to-10th decay rate, and the mean similarity, clamped
to the unit interval; the empty cohort scores 1. -/
def calculate_anomaly_score (twins : List FinancialTwin) : ℚ :=
  match twins with
  | [] => 1
  | t0 :: _ =>
    let max_sim := t0.similarity
    let avg_sim := (twins.map (fun t => t.similarity)).sum / (twins.length : ℚ)
    let decay_rate :=
      if 10 ≤ twins.length ∧ 0 < max_sim then
        (t0.similarity - (twins.getD (min 9 (twins.length - 1)) t0).similarity) / max_sim
      else 0
    let anomaly_from_similarity := 1 - max_sim
    let anomaly_from_decay := decay_rate
    let anomaly_from_density := 1 - avg_sim
    let anomaly_score :=
      anomaly_from_similarity * (4/10) +
      anomaly_from_decay * (3/10) +
      anomaly_from_density * (3/10)
    min 1 (max 0 anomaly_score)

/-- Euclidean norm of a vector, `np.linalg.norm`. -/
noncomputable def vecNorm (v : List ℝ) : ℝ :=
  Real.sqrt ((v.map (fun x => x ^ 2)).sum)

/-- Model of `services.cosine_similarity`: dot product over the product of norms,
with an explicit guard returning 0.0 when either norm is zero. -/
noncomputable def cosine_similarity (vec_a vec_b : List ℝ) : ℝ :=
  let dot_product := (List.zipWith (fun x y => x * y) vec_a vec_b).sum
  let norm_a := vecNorm vec_a
  let norm_b := vecNorm vec_b
  if norm_a = 0 ∨ norm_b = 0 then 0
  else dot_product / (norm_a * norm_b)

/-! Concrete fixtures used to exercise the theorems on closed inputs. -/

/-- A concrete application: moderate loan request, two previous loans. -/
def testApp : Application :=
  { requested_amount := some 10000
    loan_purpose := some "debt_consolidation"
    term := some " 36 months"
    grade := some "B"
    annual_income_snapshot := some 60000
    dti_snapshot := some 18
    fico_snapshot := some 720
    credit_history_length_snapshot := some 8
    revolving_utilization_snapshot := some 45
    nb_previous_loans := some 2
    open_accounts := some 8
    total_accounts := some 15
    delinquencies_2y := some 0
    inquiries_6m := some 1
    public_records := some 0
    payment_to_income_ratio := some (25/100)
    loan_to_income_ratio := some (25/100) }

/-- A cohort-statistics value with prescribed rates, for exercising
`make_decision` at chosen boundary points. -/
def testAnalysis (s d l : ℚ) : Analysis :=
  { total_twins := 100
    success_count := 0
    default_count := 0
    late_count := 0
    rejected_count := 0
    success_rate := s
    default_rate := d
    late_rate := l
    avg_similarity := 92/100
    top_twins := [] }

/-- A concrete neighbor payload. -/
def mkPayload (o : String) (fraud comeback : Bool) : Payload :=
  { outcome := o
    is_fraud_suspect := fraud
    is_comeback_story := comeback
    application_id := none
    requested_amount := some 5000
    fico := some 720
    dti := some 18 }

/-- A concrete neighbor. -/
def mkNeighbor (s : ℚ) (o : String) (fraud comeback : Bool) : Neighbor :=
  { score := s, payload := mkPayload o fraud comeback }

/-! Helper lemmas. -/

/-- The verdict chosen by `make_decision` depends only on the rates, via
the fixed threshold table. -/
lemma make_decision_decision_eq (a : Analysis) (app : Application) :
    (make_decision a app).decision =
      if 99/100 ≤ a.success_rate ∧ a.default_rate < 5/100 then Verdict.APPROVED
      else if 90/100 ≤ a.success_rate ∧ a.default_rate < 10/100 then
        Verdict.APPROVED_WITH_CONDITIONS
      else if 85/100 ≤ a.success_rate then Verdict.MANUAL_REVIEW
      else Verdict.REJECTED := by
  unfold make_decision
  dsimp only
  split_ifs <;> rfl

/-- The function `make_decision` never attaches a roadmap itself. -/
lemma make_decision_roadmap_none (a : Analysis) (app : Application) :
    (make_decision a app).roadmap = none := by
  unfold make_decision
  dsimp only
  split_ifs <;> rfl

/-- A string can match at most one of the four outcome labels. -/
lemma outcome_indicator_sum_le (o : String) :
    ((if o == "success" then 1 else 0) + (if o == "default" then 1 else 0) +
      (if o == "late_payments" then 1 else 0) + (if o == "rejected" then 1 else 0) : ℕ) ≤ 1 := by
  by_cases h1 : o = "success" <;> by_cases h2 : o = "default" <;>
    by_cases h3 : o = "late_payments" <;> by_cases h4 : o = "rejected" <;>
    simp_all

/-- The four outcome counts together never exceed the list length. -/
lemma countP_outcomes_le (l : List Neighbor) :
    l.countP (fun r => r.payload.outcome == "success") +
      l.countP (fun r => r.payload.outcome == "default") +
      l.countP (fun r => r.payload.outcome == "late_payments") +
      l.countP (fun r => r.payload.outcome == "rejected") ≤ l.length := by
  induction l with
  | nil => simp
  | cons a l ih =>
    simp only [List.countP_cons, List.length_cons]
    have h := outcome_indicator_sum_le a.payload.outcome
    omega

/-! Claim theorems. -/

/-- Claim C5: the function `analyze_twins` is pure and total: the empty neighbor list
yields the all-zero statistics object (no division by zero), and on any
non-empty list each rate is the exact-label count divided by the total,
and `avg_similarity` is the arithmetic mean of the scores. -/
theorem analyze_twins_rates (results : List Neighbor) (h : results ≠ []) :
    analyze_twins [] =
      { total_twins := 0, success_count := 0, default_count := 0, late_count := 0,
        rejected_count := 0, success_rate := 0, default_rate := 0, late_rate := 0,
        avg_similarity := 0, top_twins := [] } ∧
    (analyze_twins results).success_rate =
      (results.countP (fun r => r.payload.outcome == "success") : ℚ) / (results.length : ℚ) ∧
    (analyze_twins results).default_rate =
      (results.countP (fun r => r.payload.outcome == "default") : ℚ) / (results.length : ℚ) ∧
    (analyze_twins results).late_rate =
      (results.countP (fun r => r.payload.outcome == "late_payments") : ℚ) / (results.length : ℚ) ∧
    (analyze_twins results).avg_similarity =
      (results.map (fun r => r.score)).sum / (results.length : ℚ) := by
  have hne : ¬ results.length = 0 := by
    simpa [List.length_eq_zero] using h
  refine ⟨rfl, ?_, ?_, ?_, ?_⟩ <;>
    simp only [analyze_twins, if_neg hne]

/-- Claim C5 witness: a concrete two-element cohort. -/
theorem analyze_twins_rates_witness :
    (analyze_twins [mkNeighbor (9/10) "success" false false,
        mkNeighbor (8/10) "default" false false]).success_rate = 1/2 := by
  have h := analyze_twins_rates
      [mkNeighbor (9/10) "success" false false, mkNeighbor (8/10) "default" false false]
      (by decide)
  rw [h.2.1]
  norm_num [mkNeighbor, mkPayload, List.countP_cons, List.countP_nil]
  simp

/-- Claim C6: for every neighbor list, the four outcome counts in the
statistics of `analyze_twins` sum to at most the total (the categories
need not partition the cohort). -/
theorem analyze_twins_count_sum (results : List Neighbor) :
    (analyze_twins results).success_count + (analyze_twins results).default_count +
      (analyze_twins results).late_count + (analyze_twins results).rejected_count ≤
      (analyze_twins results).total_twins := by
  by_cases h : results.length = 0
  · simp [analyze_twins, h]
  · simp only [analyze_twins, if_neg h]
    exact countP_outcomes_le results

/-- Claim C1: the function `make_decision` applies the threshold table first-match-wins
(APPROVED at success ≥ 0.99 and default < 0.05; else
APPROVED_WITH_CONDITIONS at success ≥ 0.90 and default < 0.10; else
MANUAL_REVIEW at success ≥ 0.85; else REJECTED), the default-rate bounds
being strict: at exactly (0.99, 0.05) the verdict is not APPROVED, and at
exactly (0.90, 0.0999) it is APPROVED_WITH_CONDITIONS. -/
theorem make_decision_threshold_table (a : Analysis) (app : Application) :
    (99/100 ≤ a.success_rate ∧ a.default_rate < 5/100 →
      (make_decision a app).decision = Verdict.APPROVED) ∧
    (¬(99/100 ≤ a.success_rate ∧ a.default_rate < 5/100) →
      90/100 ≤ a.success_rate ∧ a.default_rate < 10/100 →
      (make_decision a app).decision = Verdict.APPROVED_WITH_CONDITIONS) ∧
    (¬(99/100 ≤ a.success_rate ∧ a.default_rate < 5/100) →
      ¬(90/100 ≤ a.success_rate ∧ a.default_rate < 10/100) →
      85/100 ≤ a.success_rate →
      (make_decision a app).decision = Verdict.MANUAL_REVIEW) ∧
    (¬(99/100 ≤ a.success_rate ∧ a.default_rate < 5/100) →
      ¬(90/100 ≤ a.success_rate ∧ a.default_rate < 10/100) →
      ¬(85/100 ≤ a.success_rate) →
      (make_decision a app).decision = Verdict.REJECTED) ∧
    (a.success_rate = 99/100 → a.default_rate = 5/100 →
      (make_decision a app).decision ≠ Verdict.APPROVED) ∧
    (a.success_rate = 90/100 → a.default_rate = 999/10000 →
      (make_decision a app).decision = Verdict.APPROVED_WITH_CONDITIONS) := by
  rw [make_decision_decision_eq]
  refine ⟨?_, ?_, ?_, ?_, ?_, ?_⟩
  · intro h1
    rw [if_pos h1]
  · intro h1 h2
    rw [if_neg h1, if_pos h2]
  · intro h1 h2 h3
    rw [if_neg h1, if_neg h2, if_pos h3]
  · intro h1 h2 h3
    rw [if_neg h1, if_neg h2, if_neg h3]
  · intro hs hd
    have h1 : ¬(99/100 ≤ a.success_rate ∧ a.default_rate < 5/100) := by
      rintro ⟨hx, hy⟩
      rw [hd] at hy
      exact absurd hy (by norm_num)
    have h2 : 90/100 ≤ a.success_rate ∧ a.default_rate < 10/100 := by
      constructor
      · rw [hs]; norm_num
      · rw [hd]; norm_num
    rw [if_neg h1, if_pos h2]
    decide
  · intro hs hd
    have h1 : ¬(99/100 ≤ a.success_rate ∧ a.default_rate < 5/100) := by
      rintro ⟨hx, hy⟩
      rw [hs] at hx
      exact absurd hx (by norm_num)
    have h2 : 90/100 ≤ a.success_rate ∧ a.default_rate < 10/100 := by
      constructor
      · rw [hs]
      · rw [hd]; norm_num
    rw [if_neg h1, if_pos h2]

/-- Claim C1 witness: both boundary cases evaluated at concrete
statistics objects. -/
theorem make_decision_threshold_table_witness :
    (make_decision (testAnalysis (99/100) (5/100) 0) testApp).decision ≠ Verdict.APPROVED ∧
    (make_decision (testAnalysis (90/100) (999/10000) 0) testApp).decision =
      Verdict.APPROVED_WITH_CONDITIONS ∧
    (make_decision (testAnalysis 1 0 0) testApp).decision = Verdict.APPROVED := by
  refine ⟨?_, ?_, ?_⟩
  · exact (make_decision_threshold_table (testAnalysis (99/100) (5/100) 0) testApp).2.2.2.2.1
      rfl rfl
  · exact (make_decision_threshold_table (testAnalysis (90/100) (999/10000) 0) testApp).2.2.2.2.2
      rfl rfl
  · exact (make_decision_threshold_table (testAnalysis 1 0 0) testApp).1
      (by norm_num [testAnalysis])

/-- Claim C4: whenever `make_decision` returns APPROVED_WITH_CONDITIONS the
conditions list is non-empty: default_rate > 0.05 attaches the 25%
amount-reduction condition (and sets the recommended amount to 75%% of the
requested amount), late_rate > 0.10 attaches the interest-premium
condition, and if neither fires the generic enhanced-monitoring condition
is attached. -/
theorem make_decision_awc_conditions (a : Analysis) (app : Application)
    (h : (make_decision a app).decision = Verdict.APPROVED_WITH_CONDITIONS) :
    (make_decision a app).conditions ≠ [] ∧
    (5/100 < a.default_rate →
      "Mandatory 25% reduction in requested amount" ∈ (make_decision a app).conditions ∧
      (make_decision a app).recommended_amount =
        some ((app.requested_amount.getD 0) * (75/100))) ∧
    (10/100 < a.late_rate →
      "Interest rate premium (+1.5% APR)" ∈ (make_decision a app).conditions) ∧
    (a.default_rate ≤ 5/100 → a.late_rate ≤ 10/100 →
      (make_decision a app).conditions = ["Standard conditions with enhanced monitoring"]) := by
  have hd := make_decision_decision_eq a app
  rw [h] at hd
  by_cases h1 : 99/100 ≤ a.success_rate ∧ a.default_rate < 5/100
  · rw [if_pos h1] at hd
    exact absurd hd (by decide)
  by_cases h2 : 90/100 ≤ a.success_rate ∧ a.default_rate < 10/100
  case neg =>
    rw [if_neg h1, if_neg h2] at hd
    split_ifs at hd
  unfold make_decision
  dsimp only
  rw [if_neg h1, if_pos h2]
  by_cases hdr : 5/100 < a.default_rate <;> by_cases hlr : 10/100 < a.late_rate <;>
    simp only [hdr, hlr, if_true, if_false, ite_true, ite_false, List.append_nil,
      List.nil_append, List.cons_append] <;>
    refine ⟨by simp, ?_, ?_, ?_⟩ <;>
    intro hx <;> try intro hy
  all_goals first
    | (exact hx.elim)
    | (exact hy.elim)
    | (exact absurd hdr (not_lt.mpr hx))
    | (exact absurd hlr (not_lt.mpr hy))
    | (exact absurd hx (not_lt.mpr hdr))
    | (exact absurd hx (not_lt.mpr hlr))
    | simp

/-- Claim C4 witness: 92% success / 8% default attaches the
reduced-amount condition. -/
theorem make_decision_awc_conditions_witness :
    (make_decision (testAnalysis (92/100) (8/100) 0) testApp).decision =
      Verdict.APPROVED_WITH_CONDITIONS ∧
    "Mandatory 25% reduction in requested amount" ∈
      (make_decision (testAnalysis (92/100) (8/100) 0) testApp).conditions ∧
    (make_decision (testAnalysis (92/100) (8/100) 0) testApp).recommended_amount =
      some 7500 := by
  have hawc : (make_decision (testAnalysis (92/100) (8/100) 0) testApp).decision =
      Verdict.APPROVED_WITH_CONDITIONS := by
    rw [make_decision_decision_eq]
    rw [if_neg (by norm_num [testAnalysis]), if_pos (by norm_num [testAnalysis])]
  have h := (make_decision_awc_conditions (testAnalysis (92/100) (8/100) 0) testApp hawc).2.1
      (by norm_num [testAnalysis])
  refine ⟨hawc, h.1, ?_⟩
  rw [h.2]
  norm_num [testApp]

/-- Claim C2: with at least 10 neighbors, if at least 5 of the top-20 carry
the fraud-suspect flag or the average similarity exceeds 0.999, the
evaluation short-circuits to REJECTED with confidence exactly 1 and the
fraud flag set, and none of the approval, roadmap, offer or nudge logic
runs (those fields keep their empty defaults). -/
theorem find_twins_fraud_override (results : List Neighbor) (app : Application)
    (hk : 10 ≤ results.length)
    (hf : 5 ≤ (results.take 20).countP (fun r => r.payload.is_fraud_suspect) ∨
          999/1000 < (analyze_twins results).avg_similarity) :
    (find_twins_core results app).decision = Verdict.REJECTED ∧
    (find_twins_core results app).confidence = 1 ∧
    (find_twins_core results app).is_fraud_suspect = true ∧
    (find_twins_core results app).conditions = [] ∧
    (find_twins_core results app).recommended_amount = none ∧
    (find_twins_core results app).roadmap = none ∧
    (find_twins_core results app).alternative_offer = none ∧
    (find_twins_core results app).nudge = false := by
  have hlen : ¬ results.length < 10 := by omega
  have key : find_twins_core results app =
      { decision := Verdict.REJECTED, confidence := 1, is_fraud_suspect := true,
        analysis := some (analyze_twins results) } := by
    unfold find_twins_core
    dsimp only
    rw [if_neg hlen, if_pos hf]
  rw [key]
  exact ⟨rfl, rfl, rfl, rfl, rfl, rfl, rfl, rfl⟩

/-- Ten neighbors that all carry the fraud-suspect flag, with a successful
outcome mix. -/
def fraudList : List Neighbor := List.replicate 10 (mkNeighbor (9/10) "success" true false)

/-- Claim C2 witness: the all-flagged cohort is force-rejected despite its
100% success rate. -/
theorem find_twins_fraud_override_witness :
    (find_twins_core fraudList testApp).decision = Verdict.REJECTED ∧
    (find_twins_core fraudList testApp).confidence = 1 ∧
    (find_twins_core fraudList testApp).is_fraud_suspect = true ∧
    (find_twins_core fraudList testApp).roadmap = none := by
  have h := find_twins_fraud_override fraudList testApp (by decide) (Or.inl (by decide))
  exact ⟨h.1, h.2.1, h.2.2.1, h.2.2.2.2.2.1⟩

/-- Claim C3: a raised neighbor-index query error is treated exactly as
zero neighbors returned (never propagated), and any neighbor list with
fewer than 10 elements yields the verdict ANOMALY_DETECTED regardless of
its outcomes. -/
theorem find_twins_degrade_safe (e : String) (app : Application)
    (results : List Neighbor) (h : results.length < 10) :
    find_twins (Except.error e) app = find_twins (Except.ok []) app ∧
    (find_twins (Except.error e) app).decision = Verdict.ANOMALY_DETECTED ∧
    (find_twins_core results app).decision = Verdict.ANOMALY_DETECTED := by
  refine ⟨rfl, rfl, ?_⟩
  unfold find_twins_core
  rw [if_pos h]

/-- Claim C3 witness: a concrete failed search and a concrete 5-neighbor
cohort of pure successes. -/
theorem find_twins_degrade_safe_witness :
    (find_twins (Except.error "connection refused") testApp).decision =
      Verdict.ANOMALY_DETECTED ∧
    (find_twins_core (List.replicate 5 (mkNeighbor (9/10) "success" false false))
      testApp).decision = Verdict.ANOMALY_DETECTED := by
  have h := find_twins_degrade_safe "connection refused" testApp
      (List.replicate 5 (mkNeighbor (9/10) "success" false false)) (by decide)
  exact ⟨h.2.1, h.2.2⟩

/-- Claim C9: on the normal (non-fraud) path, when the verdict is
REJECTED a roadmap is attached exactly when some neighbor carries the
comeback-story flag, and it surfaces the FICO and DTI of the first such
neighbor in the list's existing order; with no flagged neighbor no
roadmap is attached. -/
theorem find_twins_rejected_roadmap (results : List Neighbor) (app : Application)
    (hk : 10 ≤ results.length)
    (hnf : ¬(5 ≤ (results.take 20).countP (fun r => r.payload.is_fraud_suspect) ∨
        999/1000 < (analyze_twins results).avg_similarity))
    (hr : (make_decision (analyze_twins results) app).decision = Verdict.REJECTED) :
    (results.filter (fun r => r.payload.is_comeback_story) = [] →
      (find_twins_core results app).roadmap = none) ∧
    (∀ best rest, results.filter (fun r => r.payload.is_comeback_story) = best :: rest →
      (find_twins_core results app).roadmap =
        some { target_fico := best.payload.fico.getD 700
               target_dti := pyRound (best.payload.dti.getD 20) 1 }) := by
  have hlen : ¬ results.length < 10 := by omega
  have nudge_step_roadmap : ∀ (d : Decision),
      (if d.decision = Verdict.APPROVED ∨ d.decision = Verdict.APPROVED_WITH_CONDITIONS then
        (if app.nb_previous_loans.getD 0 = 0 then { d with nudge := true } else d)
      else d).roadmap = d.roadmap := by
    intro d
    split_ifs <;> rfl
  have key : (find_twins_core results app).roadmap =
      (match results.filter (fun r => r.payload.is_comeback_story) with
        | [] => none
        | best :: _ =>
          some ⟨best.payload.fico.getD 700, pyRound (best.payload.dti.getD 20) 1⟩) := by
    unfold find_twins_core
    dsimp only
    rw [if_neg hlen, if_neg hnf, if_pos hr, nudge_step_roadmap]
    cases hcb : results.filter (fun r => r.payload.is_comeback_story) with
    | nil =>
      dsimp only
      cases hs : results.filter (fun r => r.payload.outcome == "success") with
      | nil => exact make_decision_roadmap_none _ _
      | cons s ss =>
        dsimp only
        split <;> exact make_decision_roadmap_none _ _
    | cons best rest =>
      dsimp only
      cases hs : results.filter (fun r => r.payload.outcome == "success") with
      | nil => rfl
      | cons s ss =>
        dsimp only
        split <;> rfl
  constructor
  · intro hcb
    rw [key, hcb]
  · intro best rest hcb
    rw [key, hcb]

/-- A non-comeback neighbor with outcome default, used by the roadmap
witness. -/
def plainDefault : Neighbor := mkNeighbor (9/10) "default" false false

/-- Ten rejected-profile neighbors whose first entry carries the
comeback-story flag. -/
def comebackList : List Neighbor :=
  [mkNeighbor (9/10) "default" false true, plainDefault, plainDefault, plainDefault,
   plainDefault, plainDefault, plainDefault, plainDefault, plainDefault, plainDefault]

/-- Claim C9 witness: the concrete rejected cohort yields a roadmap built
from the first comeback neighbor (FICO 720, DTI 18). -/
theorem find_twins_rejected_roadmap_witness :
    (find_twins_core comebackList testApp).roadmap = some ⟨720, 18⟩ := by
  have hk : 10 ≤ comebackList.length := by decide
  have hnf : ¬(5 ≤ (comebackList.take 20).countP (fun r => r.payload.is_fraud_suspect) ∨
      999/1000 < (analyze_twins comebackList).avg_similarity) := by
    rintro (hc | hc)
    · exact absurd hc (by decide)
    · have hav : (analyze_twins comebackList).avg_similarity = 9/10 := by
        norm_num [analyze_twins, comebackList, plainDefault, mkNeighbor, mkPayload]
      rw [hav] at hc
      exact absurd hc (by norm_num)
  have hr : (make_decision (analyze_twins comebackList) testApp).decision =
      Verdict.REJECTED := by
    rw [make_decision_decision_eq]
    have hs : (analyze_twins comebackList).success_rate = 0 := by
      norm_num [analyze_twins, comebackList, plainDefault, mkNeighbor, mkPayload,
        List.countP_cons, List.countP_nil]
      simp
    rw [hs]
    rw [if_neg (fun hcon => absurd hcon.1 (by norm_num)),
      if_neg (fun hcon => absurd hcon.1 (by norm_num)), if_neg (by norm_num)]
  have h := (find_twins_rejected_roadmap comebackList testApp hk hnf hr).2
      (mkNeighbor (9/10) "default" false true) [] (by rfl)
  rw [h]
  have hdti : pyRound (((mkNeighbor (9/10) "default" false true).payload.dti.getD 20)) 1
      = 18 := by
    norm_num [mkNeighbor, mkPayload, pyRound, roundHalfToEven]
  rw [hdti]
  rfl

/-- Claim C7: for a non-empty twin list the anomaly score is the weighted
sum 0.4·(1 - topSimilarity) + 0.3·decay + 0.3·(1 - meanSimilarity)
clamped to [0,1], where decay is (top1 - top10)/top1 when there are at
least 10 twins and top1 > 0, and 0 otherwise. -/
theorem calculate_anomaly_score_formula (twins : List FinancialTwin) (h : twins ≠ []) :
    calculate_anomaly_score twins =
      min 1 (max 0
        ((1 - (twins.headD ⟨0⟩).similarity) * (4/10) +
         (if 10 ≤ twins.length ∧ 0 < (twins.headD ⟨0⟩).similarity then
            ((twins.headD ⟨0⟩).similarity - (twins.getD 9 ⟨0⟩).similarity) /
              (twins.headD ⟨0⟩).similarity
          else 0) * (3/10) +
         (1 - (twins.map (fun t => t.similarity)).sum / (twins.length : ℚ)) * (3/10))) := by
  cases twins with
  | nil => exact absurd rfl h
  | cons t0 rest =>
    unfold calculate_anomaly_score
    dsimp only [List.headD]
    by_cases h10 : 10 ≤ (t0 :: rest).length ∧ 0 < t0.similarity
    · have hmin : min 9 ((t0 :: rest).length - 1) = 9 := by
        have h1 := h10.1
        omega
      have h9 : 9 < (t0 :: rest).length := by
        have h1 := h10.1
        omega
      have hget : (t0 :: rest).getD (min 9 ((t0 :: rest).length - 1)) t0 =
          (t0 :: rest).getD 9 (⟨0⟩ : FinancialTwin) := by
        rw [hmin, List.getD_eq_getElem?_getD, List.getD_eq_getElem?_getD,
          List.getElem?_eq_getElem h9]
        rfl
      rw [if_pos h10, if_pos h10, hget]
    · rw [if_neg h10, if_neg h10]

/-- Claim C7 witness: ten identical twins at similarity 0.9 score
0.4·0.1 + 0 + 0.3·0.1 = 0.07. -/
theorem calculate_anomaly_score_formula_witness :
    calculate_anomaly_score
      [(⟨9/10⟩ : FinancialTwin), ⟨9/10⟩, ⟨9/10⟩, ⟨9/10⟩, ⟨9/10⟩,
       ⟨9/10⟩, ⟨9/10⟩, ⟨9/10⟩, ⟨9/10⟩, ⟨9/10⟩] = 7/100 := by
  have h := calculate_anomaly_score_formula
      [(⟨9/10⟩ : FinancialTwin), ⟨9/10⟩, ⟨9/10⟩, ⟨9/10⟩, ⟨9/10⟩,
       ⟨9/10⟩, ⟨9/10⟩, ⟨9/10⟩, ⟨9/10⟩, ⟨9/10⟩] (by simp)
  rw [h]
  norm_num [List.headD, List.getD]

/-- Python `x or 0` preserves nonnegativity of an optional field. -/
lemma orFalsy_nonneg (o : Option ℚ) (h : 0 ≤ o.getD 0) : 0 ≤ orFalsy o 0 := by
  cases o with
  | none => simp [orFalsy]
  | some v =>
    simp only [orFalsy]
    split_ifs with hv
    · exact le_refl 0
    · simpa using h

/-- Dividing a nonnegative value by a positive cap and clamping with
`min · 1` lands in the unit interval. -/
lemma div_clamp_mem (x c : ℚ) (hx : 0 ≤ x) (hc : 0 < c) :
    0 ≤ min (x / c) 1 ∧ min (x / c) 1 ≤ 1 :=
  ⟨le_min (div_nonneg hx hc.le) zero_le_one, min_le_right _ _⟩

/-- Clamping a nonnegative value with `min · 1` lands in the unit
interval. -/
lemma clamp_mem (x : ℚ) (hx : 0 ≤ x) : 0 ≤ min x 1 ∧ min x 1 ≤ 1 :=
  ⟨le_min hx zero_le_one, min_le_right _ _⟩

/-- Claim C8: encoding is deterministic, every ratio-like and count-like
coordinate (indices 2-5 and 7-13) lies in [0,1] for inputs in the
documented (nonnegative) domains, and the credit-score coordinate
(index 6) is the score divided by 850 with no clamp. -/
theorem create_application_vector_props (log1p : ℚ → ℚ) (app : Application)
    (hdti : 0 ≤ app.dti_snapshot.getD 0)
    (hpti : 0 ≤ app.payment_to_income_ratio.getD 0)
    (hlti : 0 ≤ app.loan_to_income_ratio.getD 0)
    (hutil : 0 ≤ app.revolving_utilization_snapshot.getD 0)
    (hhist : 0 ≤ app.credit_history_length_snapshot.getD 0)
    (hprev : 0 ≤ app.nb_previous_loans.getD 0)
    (hopen : 0 ≤ app.open_accounts.getD 0)
    (htot : 0 ≤ app.total_accounts.getD 0)
    (hdel : 0 ≤ app.delinquencies_2y.getD 0)
    (hinq : 0 ≤ app.inquiries_6m.getD 0)
    (hpub : 0 ≤ app.public_records.getD 0) :
    create_application_vector log1p app 50 = create_application_vector log1p app 50 ∧
    (0 ≤ (create_application_vector log1p app 50).getD 2 0 ∧
      (create_application_vector log1p app 50).getD 2 0 ≤ 1) ∧
    (0 ≤ (create_application_vector log1p app 50).getD 3 0 ∧
      (create_application_vector log1p app 50).getD 3 0 ≤ 1) ∧
    (0 ≤ (create_application_vector log1p app 50).getD 4 0 ∧
      (create_application_vector log1p app 50).getD 4 0 ≤ 1) ∧
    (0 ≤ (create_application_vector log1p app 50).getD 5 0 ∧
      (create_application_vector log1p app 50).getD 5 0 ≤ 1) ∧
    (0 ≤ (create_application_vector log1p app 50).getD 7 0 ∧
      (create_application_vector log1p app 50).getD 7 0 ≤ 1) ∧
    (0 ≤ (create_application_vector log1p app 50).getD 8 0 ∧
      (create_application_vector log1p app 50).getD 8 0 ≤ 1) ∧
    (0 ≤ (create_application_vector log1p app 50).getD 9 0 ∧
      (create_application_vector log1p app 50).getD 9 0 ≤ 1) ∧
    (0 ≤ (create_application_vector log1p app 50).getD 10 0 ∧
      (create_application_vector log1p app 50).getD 10 0 ≤ 1) ∧
    (0 ≤ (create_application_vector log1p app 50).getD 11 0 ∧
      (create_application_vector log1p app 50).getD 11 0 ≤ 1) ∧
    (0 ≤ (create_application_vector log1p app 50).getD 12 0 ∧
      (create_application_vector log1p app 50).getD 12 0 ≤ 1) ∧
    (0 ≤ (create_application_vector log1p app 50).getD 13 0 ∧
      (create_application_vector log1p app 50).getD 13 0 ≤ 1) ∧
    (create_application_vector log1p app 50).getD 6 0 =
      orFalsy app.fico_snapshot 650 / 850 := by
  refine ⟨rfl, ?_, ?_, ?_, ?_, ?_, ?_, ?_, ?_, ?_, ?_, ?_, rfl⟩
  · exact div_clamp_mem _ _ (orFalsy_nonneg _ hdti) (by norm_num)
  · exact clamp_mem _ (orFalsy_nonneg _ hpti)
  · exact clamp_mem _ (orFalsy_nonneg _ hlti)
  · exact div_clamp_mem _ _ (orFalsy_nonneg _ hutil) (by norm_num)
  · exact div_clamp_mem _ _ (orFalsy_nonneg _ hhist) (by norm_num)
  · exact div_clamp_mem _ _ (orFalsy_nonneg _ hprev) (by norm_num)
  · exact div_clamp_mem _ _ (orFalsy_nonneg _ hopen) (by norm_num)
  · exact div_clamp_mem _ _ (orFalsy_nonneg _ htot) (by norm_num)
  · exact div_clamp_mem _ _ (orFalsy_nonneg _ hdel) (by norm_num)
  · exact div_clamp_mem _ _ (orFalsy_nonneg _ hinq) (by norm_num)
  · exact div_clamp_mem _ _ (orFalsy_nonneg _ hpub) (by norm_num)

/-- Claim C8 witness: the DTI coordinate of the concrete application lies
in [0,1]. -/
theorem create_application_vector_props_witness :
    0 ≤ (create_application_vector (fun q => q) testApp 50).getD 2 0 ∧
    (create_application_vector (fun q => q) testApp 50).getD 2 0 ≤ 1 := by
  exact (create_application_vector_props (fun q => q) testApp
    (by norm_num [testApp]) (by norm_num [testApp]) (by norm_num [testApp])
    (by norm_num [testApp]) (by norm_num [testApp]) (by norm_num [testApp])
    (by norm_num [testApp]) (by norm_num [testApp]) (by norm_num [testApp])
    (by norm_num [testApp]) (by norm_num [testApp])).2.1

/-- Claim C10: the function `cosine_similarity` returns 0.0 whenever either input has
zero norm, so the division by the product of norms is always guarded. -/
theorem cosine_similarity_zero_norm (vec_a vec_b : List ℝ)
    (h : vecNorm vec_a = 0 ∨ vecNorm vec_b = 0) :
    cosine_similarity vec_a vec_b = 0 := by
  unfold cosine_similarity
  dsimp only
  rw [if_pos h]

/-- Claim C10 witness: the zero vector against a nonzero vector yields
similarity 0. -/
theorem cosine_similarity_zero_norm_witness :
    cosine_similarity [0, 0] [1, 2] = 0 := by
  refine cosine_similarity_zero_norm [0, 0] [1, 2] (Or.inl ?_)
  norm_num [vecNorm, Real.sqrt_zero]

end CreditTwin
